import Mathlib

/-!
Shallow embedding of the OpenType shaping orchestrator
(`src/harfbuzz/src/hb-ot-shape.cc`) and verification of its
natural-language specification.

External collaborators (face table queries, the compiled feature map, the
complex shaper, Unicode queries) are modelled as records of abstract query
results or as function parameters; all theorems quantify over them.
-/

/-- Text direction, mirroring `rb_direction_t` (LTR, RTL, TTB, BTT, INVALID). -/
inductive Direction where
  | LTR
  | RTL
  | TTB
  | BTT
  | INVALID
deriving DecidableEq, Repr, Inhabited

/-- RB_DIRECTION_IS_HORIZONTAL: true for LTR and RTL. -/
def RB_DIRECTION_IS_HORIZONTAL : Direction → Bool
  | .LTR => true
  | .RTL => true
  | _ => false

/-- RB_DIRECTION_IS_VERTICAL: true for TTB and BTT. -/
def RB_DIRECTION_IS_VERTICAL : Direction → Bool
  | .TTB => true
  | .BTT => true
  | _ => false

/-- RB_DIRECTION_IS_FORWARD: true for LTR and TTB. -/
def RB_DIRECTION_IS_FORWARD : Direction → Bool
  | .LTR => true
  | .TTB => true
  | _ => false

/-- RB_DIRECTION_IS_BACKWARD: true for RTL and BTT. -/
def RB_DIRECTION_IS_BACKWARD : Direction → Bool
  | .RTL => true
  | .BTT => true
  | _ => false

/-- RB_TAG packs four ASCII characters into a big-endian 32-bit tag. -/
def rbTag (a b c d : Char) : Nat :=
  ((a.toNat * 256 + b.toNat) * 256 + c.toNat) * 256 + d.toNat

/-- Abstract font face: the capability predicates the orchestrator queries.
Each field models one of the external table-presence tests
(`rb_aat_layout_has_substitution`, `rb_ot_layout_has_positioning`, ...). -/
structure rb_face_t where
  aat_has_substitution : Bool
  ot_has_substitution : Bool
  aat_has_positioning : Bool
  ot_has_positioning : Bool
  ot_has_kerning : Bool
  ot_has_machine_kerning : Bool
  ot_has_cross_kerning : Bool
  ot_has_glyph_classes : Bool
  aat_has_tracking : Bool
deriving DecidableEq, Repr

/-- Segment properties: script (as a tag) and direction. -/
structure rb_segment_properties_t where
  script : Nat
  direction : Direction
deriving DecidableEq, Repr

/-- Zero-width-marks modes of a complex shaper
(RB_OT_SHAPE_ZERO_WIDTH_MARKS_{NONE, BY_GDEF_EARLY, BY_GDEF_LATE}). -/
inductive ZeroWidthMarksMode where
  | NONE
  | BY_GDEF_EARLY
  | BY_GDEF_LATE
deriving DecidableEq, Repr

/-- The attributes of a complex shaper the planner and compiler consult.
`gpos_tag = 0` models a null GPOS tag. -/
structure ComplexShaper where
  gpos_tag : Nat
  zero_width_marks_mode : ZeroWidthMarksMode
  fallback_position : Bool
deriving DecidableEq, Repr

/-- RB_OT_LAYOUT_NO_FEATURE_INDEX sentinel (0xFFFF). -/
def RB_OT_LAYOUT_NO_FEATURE_INDEX : Nat := 0xFFFF

/-- Query results of a compiled `rb_ot_map_t`: single-bit masks per tag,
(mask, shift) pairs per tag, feature index per (table, tag), and the
chosen script per table. All abstract (the map builder is external). -/
structure MapOut where
  get_1_mask : Nat → Nat
  get_mask : Nat → Nat × Nat
  feature_index : Nat → Nat → Nat
  chosen_script : Nat → Nat
  global_mask : Nat

/-- rb_apply_morx (hb-ot-shape.cc lines 68-73): morx applies when the face
has AAT substitution and either the direction is horizontal or the face has
no OpenType (GSUB) substitution. -/
def rb_apply_morx (face : rb_face_t) (props : rb_segment_properties_t) : Bool :=
  face.aat_has_substitution &&
    (RB_DIRECTION_IS_HORIZONTAL props.direction || !face.ot_has_substitution)

/-- The shape planner state after construction (hb-ot-shape.cc lines 88-105). -/
structure rb_ot_shape_planner_t where
  face : rb_face_t
  props : rb_segment_properties_t
  apply_morx : Bool
  shaper : ComplexShaper
  script_zero_marks : Bool
  script_fallback_mark_positioning : Bool

/-- Planner construction (hb-ot-shape.cc lines 88-105): compute `apply_morx`,
categorize the shaper (here: the abstract `categorized` argument), derive the
script flags from the categorized shaper, then, if morx applies, reconsider
the shaper (the abstract `reconsider` argument). -/
def plannerInit (face : rb_face_t) (props : rb_segment_properties_t)
    (categorized : ComplexShaper) (reconsider : ComplexShaper → ComplexShaper) :
    rb_ot_shape_planner_t :=
  let apply_morx := rb_apply_morx face props
  { face := face
    props := props
    apply_morx := apply_morx
    script_zero_marks := categorized.zero_width_marks_mode != ZeroWidthMarksMode.NONE
    script_fallback_mark_positioning := categorized.fallback_position
    shaper := if apply_morx then reconsider categorized else categorized }

/-- The compiled shape plan (the decision-carrying fields of
`rb_ot_shape_plan_t` filled by `compile`). -/
structure rb_ot_shape_plan_t where
  props : rb_segment_properties_t
  shaper : ComplexShaper
  frac_mask : Nat
  numr_mask : Nat
  dnom_mask : Nat
  has_frac : Bool
  rtlm_mask : Nat
  has_vert : Bool
  kern_mask : Nat
  requested_kerning : Bool
  trak_mask : Nat
  requested_tracking : Bool
  fallback_glyph_classes : Bool
  apply_morx : Bool
  apply_kerx : Bool
  apply_gpos : Bool
  apply_kern : Bool
  zero_marks : Bool
  has_gpos_mark : Bool
  adjust_mark_positioning_when_zeroing : Bool
  fallback_mark_positioning : Bool
  apply_trak : Bool
deriving Repr

/-- Plan compilation (hb-ot-shape.cc lines 112-179), translated statement by
statement; the plan starts zeroed, so the positioning if/else-if ladder
(lines 156-167) is flattened into single assignments per field.  `m` holds
the query results of the compiled OT map. -/
def compile (pl : rb_ot_shape_planner_t) (m : MapOut) : rb_ot_shape_plan_t :=
  let face := pl.face
  let frac_mask := m.get_1_mask (rbTag 'f' 'r' 'a' 'c')
  let numr_mask := m.get_1_mask (rbTag 'n' 'u' 'm' 'r')
  let dnom_mask := m.get_1_mask (rbTag 'd' 'n' 'o' 'm')
  let has_frac := frac_mask != 0 || (numr_mask != 0 && dnom_mask != 0)
  let rtlm_mask := m.get_1_mask (rbTag 'r' 't' 'l' 'm')
  let has_vert := m.get_1_mask (rbTag 'v' 'e' 'r' 't') != 0
  let kern_tag :=
    if RB_DIRECTION_IS_HORIZONTAL pl.props.direction then rbTag 'k' 'e' 'r' 'n'
    else rbTag 'v' 'k' 'r' 'n'
  let kern_mask := (m.get_mask kern_tag).fst
  let requested_kerning := kern_mask != 0
  let trak_mask := (m.get_mask (rbTag 't' 'r' 'a' 'k')).fst
  let requested_tracking := trak_mask != 0
  let gpos_tag := pl.shaper.gpos_tag
  let has_gpos_kern := m.feature_index 1 kern_tag != RB_OT_LAYOUT_NO_FEATURE_INDEX
  let disable_gpos := gpos_tag != 0 && gpos_tag != m.chosen_script 1
  let fallback_glyph_classes := !face.ot_has_glyph_classes
  let apply_morx := pl.apply_morx
  -- lines 156-159: if aat positioning, kerx; else if GPOS usable, gpos.
  let apply_kerx := face.aat_has_positioning
  let apply_gpos :=
    !face.aat_has_positioning &&
      (!apply_morx && !disable_gpos && face.ot_has_positioning)
  -- lines 161-167: Apple-style re-election when no kerning source picked yet.
  let reelect := !apply_kerx && (!has_gpos_kern || !apply_gpos)
  let apply_kern :=
    reelect && !face.aat_has_positioning && face.ot_has_kerning
  let apply_kerx := if reelect && face.aat_has_positioning then true else apply_kerx
  let zero_marks :=
    pl.script_zero_marks && !apply_kerx &&
      (!apply_kern || !face.ot_has_machine_kerning)
  let has_gpos_mark := m.get_1_mask (rbTag 'm' 'a' 'r' 'k') != 0
  let adjust_mark_positioning_when_zeroing :=
    !apply_gpos && !apply_kerx && (!apply_kern || !face.ot_has_cross_kerning)
  let fallback_mark_positioning :=
    adjust_mark_positioning_when_zeroing && pl.script_fallback_mark_positioning
  let apply_trak := requested_tracking && face.aat_has_tracking
  { props := pl.props
    shaper := pl.shaper
    frac_mask := frac_mask
    numr_mask := numr_mask
    dnom_mask := dnom_mask
    has_frac := has_frac
    rtlm_mask := rtlm_mask
    has_vert := has_vert
    kern_mask := kern_mask
    requested_kerning := requested_kerning
    trak_mask := trak_mask
    requested_tracking := requested_tracking
    fallback_glyph_classes := fallback_glyph_classes
    apply_morx := apply_morx
    apply_kerx := apply_kerx
    apply_gpos := apply_gpos
    apply_kern := apply_kern
    zero_marks := zero_marks
    has_gpos_mark := has_gpos_mark
    adjust_mark_positioning_when_zeroing := adjust_mark_positioning_when_zeroing
    fallback_mark_positioning := fallback_mark_positioning
    apply_trak := apply_trak }

/-- The positioning backend ultimately invoked by
`rb_ot_shape_plan_t::position`. -/
inductive PosBackend where
  | gpos
  | kerx
  | kern
  | fallbackKern
deriving DecidableEq, Repr

/-- Positioning dispatch (hb-ot-shape.cc lines 221-231): the if/else-if
chain checks `apply_gpos`, then `apply_kerx`, then `apply_kern`, with
fallback kerning last. -/
def positionDispatch (p : rb_ot_shape_plan_t) : PosBackend :=
  if p.apply_gpos then PosBackend.gpos
  else if p.apply_kerx then PosBackend.kerx
  else if p.apply_kern then PosBackend.kern
  else PosBackend.fallbackKern

/-- Modelled from the spec: backend selection in the spec's stated priority
order `apply_kerx` over `apply_gpos` over `apply_kern` over fallback
kerning (spec invariant I2). -/
def priorityDispatchSpec (p : rb_ot_shape_plan_t) : PosBackend :=
  if p.apply_kerx then PosBackend.kerx
  else if p.apply_gpos then PosBackend.gpos
  else if p.apply_kern then PosBackend.kern
  else PosBackend.fallbackKern

theorem compile_apply_kerx_eq (pl : rb_ot_shape_planner_t) (m : MapOut) :
    (compile pl m).apply_kerx = pl.face.aat_has_positioning := by
  simp only [compile]
  cases h : pl.face.aat_has_positioning <;> simp [h]

theorem compile_apply_gpos_eq (pl : rb_ot_shape_planner_t) (m : MapOut) :
    (compile pl m).apply_gpos =
      (!pl.face.aat_has_positioning &&
        (!pl.apply_morx &&
          !(pl.shaper.gpos_tag != 0 && pl.shaper.gpos_tag != m.chosen_script 1) &&
          pl.face.ot_has_positioning)) := by
  simp only [compile]

theorem compile_kerx_gpos_not_both (pl : rb_ot_shape_planner_t) (m : MapOut) :
    ((compile pl m).apply_kerx && (compile pl m).apply_gpos) = false := by
  rw [compile_apply_kerx_eq, compile_apply_gpos_eq]
  cases h : pl.face.aat_has_positioning <;> simp [h]

theorem dispatch_eq_of_not_both (p : rb_ot_shape_plan_t)
    (h : (p.apply_kerx && p.apply_gpos) = false) :
    positionDispatch p = priorityDispatchSpec p := by
  unfold positionDispatch priorityDispatchSpec
  cases hk : p.apply_kerx <;> cases hg : p.apply_gpos <;> simp_all

/-- C1: for every face, segment properties, categorized shaper, morx
reconsideration and compiled-map query results, the compiled plan never has
`apply_kerx` and `apply_gpos` both true (so the Apple-style re-election
exception never materializes), and the positioning dispatch of
`rb_ot_shape_plan_t::position` activates exactly one backend, agreeing with
the spec's priority order kerx over gpos over kern over fallback kerning. -/
theorem positioning_backend_invariant
    (face : rb_face_t) (props : rb_segment_properties_t)
    (cat : ComplexShaper) (rec : ComplexShaper → ComplexShaper) (m : MapOut) :
    ((compile (plannerInit face props cat rec) m).apply_kerx &&
      (compile (plannerInit face props cat rec) m).apply_gpos) = false ∧
    positionDispatch (compile (plannerInit face props cat rec) m) =
      priorityDispatchSpec (compile (plannerInit face props cat rec) m) := by
  refine ⟨compile_kerx_gpos_not_both _ _, dispatch_eq_of_not_both _ ?_⟩
  exact compile_kerx_gpos_not_both _ _

/-- C10: for every face, segment properties, shaper categorization/
reconsideration and compiled-map query results, the compiled plan has
`apply_kerx` equal to the face's AAT positioning capability alone. -/
theorem apply_kerx_is_aat_positioning
    (face : rb_face_t) (props : rb_segment_properties_t)
    (cat : ComplexShaper) (rec : ComplexShaper → ComplexShaper) (m : MapOut) :
    (compile (plannerInit face props cat rec) m).apply_kerx =
      face.aat_has_positioning := by
  rw [compile_apply_kerx_eq]
  rfl

/-- C2: the compiled plan's `apply_morx` equals the predicate of
`rb_apply_morx`: AAT substitution present and (direction horizontal or no
GSUB substitution); consequently `apply_morx` is false whenever the
direction is not horizontal and the face has GSUB (second conjunct, phrased
as a Boolean equation). -/
theorem apply_morx_predicate
    (face : rb_face_t) (props : rb_segment_properties_t)
    (cat : ComplexShaper) (rec : ComplexShaper → ComplexShaper) (m : MapOut) :
    (compile (plannerInit face props cat rec) m).apply_morx =
      (face.aat_has_substitution &&
        (RB_DIRECTION_IS_HORIZONTAL props.direction || !face.ot_has_substitution)) ∧
    ((compile (plannerInit face props cat rec) m).apply_morx &&
      !RB_DIRECTION_IS_HORIZONTAL props.direction && face.ot_has_substitution) = false := by
  have h : (compile (plannerInit face props cat rec) m).apply_morx =
      rb_apply_morx face props := rfl
  constructor
  · rw [h]; rfl
  · rw [h]
    unfold rb_apply_morx
    cases face.aat_has_substitution <;>
      cases face.ot_has_substitution <;>
        cases RB_DIRECTION_IS_HORIZONTAL props.direction <;> rfl

/-- C4: on every compiled plan, `adjust_mark_positioning_when_zeroing`
equals `¬apply_gpos ∧ ¬apply_kerx ∧ (¬apply_kern ∨ no OT cross-stream
kerning)`, `fallback_mark_positioning` equals that conjoined with the
categorized shaper's `fallback_position` flag, and invariant I4
(`fallback_mark_positioning` implies `adjust_mark_positioning_when_zeroing`)
holds, phrased as a Boolean equation. -/
theorem mark_positioning_policy
    (face : rb_face_t) (props : rb_segment_properties_t)
    (cat : ComplexShaper) (rec : ComplexShaper → ComplexShaper) (m : MapOut) :
    (compile (plannerInit face props cat rec) m).adjust_mark_positioning_when_zeroing =
      (!(compile (plannerInit face props cat rec) m).apply_gpos &&
        !(compile (plannerInit face props cat rec) m).apply_kerx &&
        (!(compile (plannerInit face props cat rec) m).apply_kern ||
          !face.ot_has_cross_kerning)) ∧
    (compile (plannerInit face props cat rec) m).fallback_mark_positioning =
      ((compile (plannerInit face props cat rec) m).adjust_mark_positioning_when_zeroing &&
        cat.fallback_position) ∧
    ((compile (plannerInit face props cat rec) m).fallback_mark_positioning &&
      !(compile (plannerInit face props cat rec) m).adjust_mark_positioning_when_zeroing) = false := by
  refine ⟨rfl, rfl, ?_⟩
  have h : (compile (plannerInit face props cat rec) m).fallback_mark_positioning =
      ((compile (plannerInit face props cat rec) m).adjust_mark_positioning_when_zeroing &&
        cat.fallback_position) := rfl
  rw [h]
  cases (compile (plannerInit face props cat rec) m).adjust_mark_positioning_when_zeroing <;> simp

/-- Modelled from the spec: feature-flag bit values (the `rb_ot_map_feature_flags_t`
enum lives in the map builder, outside src/); only the named combinations matter. -/
def F_NONE : Nat := 0

/-- GLOBAL feature flag. -/
def F_GLOBAL : Nat := 1

/-- HAS_FALLBACK feature flag. -/
def F_HAS_FALLBACK : Nat := 2

/-- MANUAL_JOINERS feature flag. -/
def F_MANUAL_JOINERS : Nat := 4

/-- GLOBAL_SEARCH feature flag. -/
def F_GLOBAL_SEARCH : Nat := 8

/-- RANDOM feature flag. -/
def F_RANDOM : Nat := 16

/-- GLOBAL | MANUAL_JOINERS. -/
def F_GLOBAL_MANUAL_JOINERS : Nat := F_GLOBAL ||| F_MANUAL_JOINERS

/-- GLOBAL | HAS_FALLBACK. -/
def F_GLOBAL_HAS_FALLBACK : Nat := F_GLOBAL ||| F_HAS_FALLBACK

/-- Modelled from the spec: RB_OT_MAP_MAX_VALUE (map builder constant,
outside src/), the maximal feature value. -/
def RB_OT_MAP_MAX_VALUE : Nat := 4294967295

/-- Modelled from the spec: RB_FEATURE_GLOBAL_START (outside src/). -/
def RB_FEATURE_GLOBAL_START : Nat := 0

/-- Modelled from the spec: RB_FEATURE_GLOBAL_END (outside src/). -/
def RB_FEATURE_GLOBAL_END : Nat := 4294967295

/-- A user feature request (`rb_feature_t`); the source's `end` field is
named `finish` here because `end` is a Lean keyword. -/
structure rb_feature_t where
  tag : Nat
  value : Nat
  start : Nat
  finish : Nat
deriving DecidableEq, Repr

/-- One entry of the static feature tables (`rb_ot_map_feature_t`). -/
structure rb_ot_map_feature_t where
  tag : Nat
  flags : Nat
deriving DecidableEq, Repr

/-- One call made on the OT map builder during feature collection. -/
inductive MapOp where
  | enableFeature (tag flags value : Nat)
  | addFeature (tag flags value : Nat)
  | addGsubPause
deriving DecidableEq, Repr

/-- common_features table (hb-ot-shape.cc lines 236-244). -/
def common_features : List rb_ot_map_feature_t :=
  [⟨rbTag 'a' 'b' 'v' 'm', F_GLOBAL⟩,
   ⟨rbTag 'b' 'l' 'w' 'm', F_GLOBAL⟩,
   ⟨rbTag 'c' 'c' 'm' 'p', F_GLOBAL⟩,
   ⟨rbTag 'l' 'o' 'c' 'l', F_GLOBAL⟩,
   ⟨rbTag 'm' 'a' 'r' 'k', F_GLOBAL_MANUAL_JOINERS⟩,
   ⟨rbTag 'm' 'k' 'm' 'k', F_GLOBAL_MANUAL_JOINERS⟩,
   ⟨rbTag 'r' 'l' 'i' 'g', F_GLOBAL⟩]

/-- horizontal_features table (hb-ot-shape.cc lines 246-254). -/
def horizontal_features : List rb_ot_map_feature_t :=
  [⟨rbTag 'c' 'a' 'l' 't', F_GLOBAL⟩,
   ⟨rbTag 'c' 'l' 'i' 'g', F_GLOBAL⟩,
   ⟨rbTag 'c' 'u' 'r' 's', F_GLOBAL⟩,
   ⟨rbTag 'd' 'i' 's' 't', F_GLOBAL⟩,
   ⟨rbTag 'k' 'e' 'r' 'n', F_GLOBAL_HAS_FALLBACK⟩,
   ⟨rbTag 'l' 'i' 'g' 'a', F_GLOBAL⟩,
   ⟨rbTag 'r' 'c' 'l' 't', F_GLOBAL⟩]

/-- Feature collection (hb-ot-shape.cc lines 256-331) as the trace of calls
made on the OT map builder (first component) and on the AAT map builder
(second component, pairs of tag and value).  The complex shaper's
`collect_features` and `override_features` hooks are external; their
contributions are the abstract traces `shaperCollect` and `shaperOverride`
spliced in where the source calls them. -/
def rb_ot_shape_collect_features (pl : rb_ot_shape_planner_t)
    (user_features : List rb_feature_t)
    (shaperCollect shaperOverride : List MapOp) :
    List MapOp × List (Nat × Nat) :=
  let ops : List MapOp :=
    [MapOp.enableFeature (rbTag 'r' 'v' 'r' 'n') F_NONE 1, MapOp.addGsubPause]
  let ops := ops ++
    (match pl.props.direction with
     | Direction.LTR =>
        [MapOp.enableFeature (rbTag 'l' 't' 'r' 'a') F_NONE 1,
         MapOp.enableFeature (rbTag 'l' 't' 'r' 'm') F_NONE 1]
     | Direction.RTL =>
        [MapOp.enableFeature (rbTag 'r' 't' 'l' 'a') F_NONE 1,
         MapOp.addFeature (rbTag 'r' 't' 'l' 'm') F_NONE 1]
     | _ => [])
  let ops := ops ++
    [MapOp.addFeature (rbTag 'f' 'r' 'a' 'c') F_NONE 1,
     MapOp.addFeature (rbTag 'n' 'u' 'm' 'r') F_NONE 1,
     MapOp.addFeature (rbTag 'd' 'n' 'o' 'm') F_NONE 1,
     MapOp.enableFeature (rbTag 'r' 'a' 'n' 'd') F_RANDOM RB_OT_MAP_MAX_VALUE,
     MapOp.enableFeature (rbTag 't' 'r' 'a' 'k') F_HAS_FALLBACK 1,
     MapOp.enableFeature (rbTag 'H' 'A' 'R' 'F') F_NONE 1]
  let ops := ops ++ shaperCollect
  let ops := ops ++ [MapOp.enableFeature (rbTag 'B' 'U' 'Z' 'Z') F_NONE 1]
  let ops := ops ++ common_features.map (fun f => MapOp.addFeature f.tag f.flags 1)
  let ops := ops ++
    (if RB_DIRECTION_IS_HORIZONTAL pl.props.direction then
      horizontal_features.map (fun f => MapOp.addFeature f.tag f.flags 1)
     else
      [MapOp.enableFeature (rbTag 'v' 'e' 'r' 't') F_GLOBAL_SEARCH 1])
  let ops := ops ++
    user_features.map (fun f =>
      MapOp.addFeature f.tag
        (if f.start == RB_FEATURE_GLOBAL_START && f.finish == RB_FEATURE_GLOBAL_END
         then F_GLOBAL else F_NONE)
        f.value)
  let aat :=
    if pl.apply_morx then user_features.map (fun f => (f.tag, f.value)) else []
  (ops ++ shaperOverride, aat)

/-- C3: for every planner and user-feature list (and any traces contributed
by the shaper hooks), feature collection produces exactly this OT builder
call sequence: enable rvrn then a null GSUB pause; direction features (LTR:
enable ltra, ltrm; RTL: enable rtla, add rtlm; others: none); add frac,
numr, dnom; enable rand with the RANDOM flag at the maximal value; enable
trak with HAS_FALLBACK; enable HARF; the shaper's collect_features trace;
enable BUZZ; the seven common features; if horizontal the seven horizontal
features (kern GLOBAL|HAS_FALLBACK, the rest GLOBAL) else enable vert with
GLOBAL_SEARCH; every user feature added with GLOBAL exactly when its span
is global; then the shaper's override_features trace — and the AAT builder
receives the user features exactly when `apply_morx` holds. -/
theorem collect_features_order (pl : rb_ot_shape_planner_t)
    (uf : List rb_feature_t) (sc so : List MapOp) :
    rb_ot_shape_collect_features pl uf sc so =
      ([MapOp.enableFeature (rbTag 'r' 'v' 'r' 'n') F_NONE 1, MapOp.addGsubPause] ++
       (match pl.props.direction with
        | Direction.LTR =>
            [MapOp.enableFeature (rbTag 'l' 't' 'r' 'a') F_NONE 1,
             MapOp.enableFeature (rbTag 'l' 't' 'r' 'm') F_NONE 1]
        | Direction.RTL =>
            [MapOp.enableFeature (rbTag 'r' 't' 'l' 'a') F_NONE 1,
             MapOp.addFeature (rbTag 'r' 't' 'l' 'm') F_NONE 1]
        | _ => []) ++
       [MapOp.addFeature (rbTag 'f' 'r' 'a' 'c') F_NONE 1,
        MapOp.addFeature (rbTag 'n' 'u' 'm' 'r') F_NONE 1,
        MapOp.addFeature (rbTag 'd' 'n' 'o' 'm') F_NONE 1,
        MapOp.enableFeature (rbTag 'r' 'a' 'n' 'd') F_RANDOM RB_OT_MAP_MAX_VALUE,
        MapOp.enableFeature (rbTag 't' 'r' 'a' 'k') F_HAS_FALLBACK 1,
        MapOp.enableFeature (rbTag 'H' 'A' 'R' 'F') F_NONE 1] ++
       sc ++
       [MapOp.enableFeature (rbTag 'B' 'U' 'Z' 'Z') F_NONE 1,
        MapOp.addFeature (rbTag 'a' 'b' 'v' 'm') F_GLOBAL 1,
        MapOp.addFeature (rbTag 'b' 'l' 'w' 'm') F_GLOBAL 1,
        MapOp.addFeature (rbTag 'c' 'c' 'm' 'p') F_GLOBAL 1,
        MapOp.addFeature (rbTag 'l' 'o' 'c' 'l') F_GLOBAL 1,
        MapOp.addFeature (rbTag 'm' 'a' 'r' 'k') F_GLOBAL_MANUAL_JOINERS 1,
        MapOp.addFeature (rbTag 'm' 'k' 'm' 'k') F_GLOBAL_MANUAL_JOINERS 1,
        MapOp.addFeature (rbTag 'r' 'l' 'i' 'g') F_GLOBAL 1] ++
       (if RB_DIRECTION_IS_HORIZONTAL pl.props.direction then
          [MapOp.addFeature (rbTag 'c' 'a' 'l' 't') F_GLOBAL 1,
           MapOp.addFeature (rbTag 'c' 'l' 'i' 'g') F_GLOBAL 1,
           MapOp.addFeature (rbTag 'c' 'u' 'r' 's') F_GLOBAL 1,
           MapOp.addFeature (rbTag 'd' 'i' 's' 't') F_GLOBAL 1,
           MapOp.addFeature (rbTag 'k' 'e' 'r' 'n') F_GLOBAL_HAS_FALLBACK 1,
           MapOp.addFeature (rbTag 'l' 'i' 'g' 'a') F_GLOBAL 1,
           MapOp.addFeature (rbTag 'r' 'c' 'l' 't') F_GLOBAL 1]
        else
          [MapOp.enableFeature (rbTag 'v' 'e' 'r' 't') F_GLOBAL_SEARCH 1]) ++
       uf.map (fun f =>
         MapOp.addFeature f.tag
           (if f.start == RB_FEATURE_GLOBAL_START && f.finish == RB_FEATURE_GLOBAL_END
            then F_GLOBAL else F_NONE)
           f.value) ++
       so,
       if pl.apply_morx then uf.map (fun f => (f.tag, f.value)) else []) := by
  cases h : pl.props.direction <;>
    simp [rb_ot_shape_collect_features, common_features, horizontal_features, h,
      RB_DIRECTION_IS_HORIZONTAL]

/-- A glyph info entry (`rb_glyph_info_t`): codepoint, feature mask, and the
cached Unicode general category the fraction scan consults. -/
structure rb_glyph_info_t where
  codepoint : Nat
  mask : Nat
  general_category : Nat
deriving DecidableEq, Repr, Inhabited

/-- Char rotation (hb-ot-shape.cc lines 353-378): on a backward target
direction each glyph is mirrored when the Unicode mirror differs and the
face has a glyph for it, otherwise its mask gains `rtlm_mask`; on a vertical
target direction without a `vert` feature each glyph is replaced by its
vertical presentation form when that differs and the face has a glyph for
it.  `mirror`, `vertChar` and `hasGlyph` model the external Unicode and
face queries. -/
def rb_ot_rotate_chars (mirror vertChar : Nat → Nat) (hasGlyph : Nat → Bool)
    (rtlm_mask : Nat) (has_vert : Bool) (target_direction : Direction)
    (infos : List rb_glyph_info_t) : List rb_glyph_info_t :=
  let infos1 :=
    if RB_DIRECTION_IS_BACKWARD target_direction then
      infos.map (fun g =>
        let codepoint := mirror g.codepoint
        if codepoint != g.codepoint && hasGlyph codepoint then
          { g with codepoint := codepoint }
        else
          { g with mask := g.mask ||| rtlm_mask })
    else infos
  if RB_DIRECTION_IS_VERTICAL target_direction && !has_vert then
    infos1.map (fun g =>
      let codepoint := vertChar g.codepoint
      if codepoint != g.codepoint && hasGlyph codepoint then
        { g with codepoint := codepoint }
      else g)
  else infos1

/-- Modelled from the spec: the per-glyph mirroring step the claim describes
for backward directions — replace the codepoint exactly when the mirror
differs and the face has a glyph for it, otherwise OR in `rtlm_mask`. -/
def mirrorStepSpec (mirror : Nat → Nat) (hasGlyph : Nat → Bool) (rtlm_mask : Nat)
    (g : rb_glyph_info_t) : rb_glyph_info_t :=
  if mirror g.codepoint != g.codepoint && hasGlyph (mirror g.codepoint) then
    { g with codepoint := mirror g.codepoint }
  else
    { g with mask := g.mask ||| rtlm_mask }

/-- Modelled from the spec: the per-glyph vertical-form step the claim
describes for vertical directions without a `vert` feature — replace the
codepoint exactly when the vertical form differs and the face has a glyph
for it, never touching the mask. -/
def vertStepSpec (vertChar : Nat → Nat) (hasGlyph : Nat → Bool)
    (g : rb_glyph_info_t) : rb_glyph_info_t :=
  if vertChar g.codepoint != g.codepoint && hasGlyph (vertChar g.codepoint) then
    { g with codepoint := vertChar g.codepoint }
  else g

/-- C6: char rotation is, glyph for glyph, the claimed per-glyph update: on
RTL it is exactly the mirror step (replace exactly when the mirror differs
and has a glyph, otherwise OR `rtlm_mask`, including when the mirror equals
the codepoint); on TTB without `vert` it is exactly the vertical-form step;
on BTT — for either value of `has_vert` — the mirror step is applied to
every glyph, followed by the vertical step exactly when there is no `vert`
feature; and the vertical step never changes a mask. -/
theorem rotate_chars_spec :
    (∀ mirror vertChar hasGlyph rtlm_mask has_vert
       (infos : List rb_glyph_info_t),
      rb_ot_rotate_chars mirror vertChar hasGlyph rtlm_mask has_vert
          Direction.RTL infos =
        infos.map (mirrorStepSpec mirror hasGlyph rtlm_mask)) ∧
    (∀ mirror vertChar hasGlyph rtlm_mask (infos : List rb_glyph_info_t),
      rb_ot_rotate_chars mirror vertChar hasGlyph rtlm_mask false
          Direction.TTB infos =
        infos.map (vertStepSpec vertChar hasGlyph)) ∧
    (∀ mirror vertChar hasGlyph rtlm_mask has_vert
       (infos : List rb_glyph_info_t),
      rb_ot_rotate_chars mirror vertChar hasGlyph rtlm_mask has_vert
          Direction.BTT infos =
        (if has_vert then infos.map (mirrorStepSpec mirror hasGlyph rtlm_mask)
         else (infos.map (mirrorStepSpec mirror hasGlyph rtlm_mask)).map
           (vertStepSpec vertChar hasGlyph))) ∧
    (∀ mirror vertChar hasGlyph rtlm_mask has_vert
       (infos : List rb_glyph_info_t),
      rb_ot_rotate_chars mirror vertChar hasGlyph rtlm_mask has_vert
          Direction.TTB infos =
        (if has_vert then infos else infos.map (vertStepSpec vertChar hasGlyph))) ∧
    (∀ vertChar hasGlyph (g : rb_glyph_info_t),
      (vertStepSpec vertChar hasGlyph g).mask = g.mask) := by
  refine ⟨?_, ?_, ?_, ?_, ?_⟩
  · intro mirror vertChar hasGlyph rtlm_mask has_vert infos
    simp [rb_ot_rotate_chars, RB_DIRECTION_IS_BACKWARD, RB_DIRECTION_IS_VERTICAL,
      mirrorStepSpec]
  · intro mirror vertChar hasGlyph rtlm_mask infos
    simp [rb_ot_rotate_chars, RB_DIRECTION_IS_BACKWARD, RB_DIRECTION_IS_VERTICAL,
      vertStepSpec]
  · intro mirror vertChar hasGlyph rtlm_mask has_vert infos
    cases has_vert <;>
      simp [rb_ot_rotate_chars, RB_DIRECTION_IS_BACKWARD, RB_DIRECTION_IS_VERTICAL,
        mirrorStepSpec, vertStepSpec]
  · intro mirror vertChar hasGlyph rtlm_mask has_vert infos
    cases has_vert <;>
      simp [rb_ot_rotate_chars, RB_DIRECTION_IS_BACKWARD, RB_DIRECTION_IS_VERTICAL,
        vertStepSpec]
  · intro vertChar hasGlyph g
    unfold vertStepSpec
    split <;> rfl

/-- Modelled from the spec: the HAS_NON_ASCII scratch-flag bit (the buffer
flag constants live outside src/); only being a single bit matters. -/
def RB_BUFFER_SCRATCH_FLAG_HAS_NON_ASCII : Nat := 1

/-- Modelled from the spec: the DECIMAL_NUMBER Unicode general-category
code (the category enum lives outside src/). -/
def RB_UNICODE_GENERAL_CATEGORY_DECIMAL_NUMBER : Nat := 9

/-- The slice of buffer state the fraction mask setup touches: glyph infos,
direction, scratch flags, and (as a call log) the spans passed to
`rb_buffer_unsafe_to_break`. -/
structure FracBuffer where
  infos : List rb_glyph_info_t
  direction : Direction
  scratch_flags : Nat
  no_break_spans : List (Nat × Nat)
deriving DecidableEq, Repr

/-- The backward scan of hb-ot-shape.cc lines 401-404: starting at `i`,
decrement while the previous glyph's general category is DECIMAL_NUMBER. -/
def fracScanStart (infos : List rb_glyph_info_t) : Nat → Nat
  | 0 => 0
  | s + 1 =>
    if (infos.getD s default).general_category ==
        RB_UNICODE_GENERAL_CATEGORY_DECIMAL_NUMBER then
      fracScanStart infos s
    else s + 1

/-- The forward scan of hb-ot-shape.cc lines 405-407: starting at `e`,
increment while in range and the glyph's general category is
DECIMAL_NUMBER. -/
def fracScanEnd (infos : List rb_glyph_info_t) (count : Nat) (e : Nat) : Nat :=
  if h : e < count then
    if (infos.getD e default).general_category ==
        RB_UNICODE_GENERAL_CATEGORY_DECIMAL_NUMBER then
      fracScanEnd infos count (e + 1)
    else e
  else e
termination_by count - e
decreasing_by omega

theorem fracScanEnd_ge (infos : List rb_glyph_info_t) (count : Nat) :
    ∀ e, e ≤ fracScanEnd infos count e := by
  have key : ∀ n e, count - e ≤ n → e ≤ fracScanEnd infos count e := by
    intro n
    induction n with
    | zero =>
      intro e h
      rw [fracScanEnd]
      split
      · omega
      · exact Nat.le_refl e
    | succ n ih =>
      intro e h
      rw [fracScanEnd]
      split
      · split
        · exact Nat.le_of_succ_le (ih (e + 1) (by omega))
        · exact Nat.le_refl e
      · exact Nat.le_refl e
  intro e
  exact key (count - e) e (Nat.le_refl _)

/-- OR a mask into every glyph whose index lies in `[lo, hi)` (the mask
loops of hb-ot-shape.cc lines 411-415). -/
def orMaskRange (infos : List rb_glyph_info_t) (lo hi m : Nat) :
    List rb_glyph_info_t :=
  infos.mapIdx (fun j g => if lo ≤ j && j < hi then { g with mask := g.mask ||| m } else g)

/-- OR a mask into the glyph at one index (hb-ot-shape.cc line 413). -/
def orMaskAt (infos : List rb_glyph_info_t) (i m : Nat) : List rb_glyph_info_t :=
  infos.mapIdx (fun j g => if j == i then { g with mask := g.mask ||| m } else g)

theorem orMaskRange_length (infos : List rb_glyph_info_t) (lo hi m : Nat) :
    (orMaskRange infos lo hi m).length = infos.length := by
  simp [orMaskRange]

theorem orMaskAt_length (infos : List rb_glyph_info_t) (i m : Nat) :
    (orMaskAt infos i m).length = infos.length := by
  simp [orMaskAt]

/-- The scan loop of rb_ot_shape_setup_masks_fraction (hb-ot-shape.cc lines
398-419): find each FRACTION SLASH (U+2044), widen to the surrounding
decimal-number run `[start, end)`, log the unsafe-to-break span, OR the
pre/frac/post masks into the three parts of the run, and resume the scan at
`end` (the source sets `i = end - 1` and the loop increments). -/
def fracLoop (frac_mask pre_mask post_mask : Nat) (b : FracBuffer) (i : Nat) :
    FracBuffer :=
  if h : i < b.infos.length then
    if (b.infos.getD i default).codepoint == 0x2044 then
      let start := fracScanStart b.infos i
      let e := fracScanEnd b.infos b.infos.length (i + 1)
      let infos1 := orMaskRange b.infos start i pre_mask
      let infos2 := orMaskAt infos1 i frac_mask
      let infos3 := orMaskRange infos2 (i + 1) e post_mask
      fracLoop frac_mask pre_mask post_mask
        { b with infos := infos3, no_break_spans := b.no_break_spans ++ [(start, e)] } e
    else
      fracLoop frac_mask pre_mask post_mask b (i + 1)
  else b
termination_by b.infos.length - i
decreasing_by
  · have h1 : i + 1 ≤ fracScanEnd b.infos b.infos.length (i + 1) :=
      fracScanEnd_ge b.infos b.infos.length (i + 1)
    simp only [orMaskRange_length, orMaskAt_length]
    omega
  · omega

/-- rb_ot_shape_setup_masks_fraction (hb-ot-shape.cc lines 380-420): return
the buffer unchanged unless the HAS_NON_ASCII scratch flag is set and the
plan has fraction features; otherwise pick the pre/post masks by the
buffer's direction and run the scan loop from index 0. -/
def rb_ot_shape_setup_masks_fraction (has_frac : Bool)
    (frac_mask numr_mask dnom_mask : Nat) (b : FracBuffer) : FracBuffer :=
  if (b.scratch_flags &&& RB_BUFFER_SCRATCH_FLAG_HAS_NON_ASCII) == 0 || !has_frac then b
  else
    let pre_mask :=
      if RB_DIRECTION_IS_FORWARD b.direction then numr_mask ||| frac_mask
      else frac_mask ||| dnom_mask
    let post_mask :=
      if RB_DIRECTION_IS_FORWARD b.direction then frac_mask ||| dnom_mask
      else numr_mask ||| frac_mask
    fracLoop frac_mask pre_mask post_mask b 0

/-- Modelled from the spec: the per-occurrence update the claim describes —
widen to `[start, end)` over adjacent DECIMAL_NUMBER glyphs, log the
unsafe-to-break span, OR the pre-mask into `[start, i)`, the frac mask into
`i`, and the post-mask into `(i, end)`. -/
def fracApplySpec (frac_mask pre_mask post_mask : Nat) (b : FracBuffer) (i : Nat) :
    FracBuffer :=
  let start := fracScanStart b.infos i
  let e := fracScanEnd b.infos b.infos.length (i + 1)
  { b with
    infos := orMaskRange (orMaskAt (orMaskRange b.infos start i pre_mask) i frac_mask)
      (i + 1) e post_mask
    no_break_spans := b.no_break_spans ++ [(start, e)] }

/-- C5: fraction mask setup (a) changes nothing when the HAS_NON_ASCII
scratch flag is clear or `has_frac` is false; (b) otherwise runs the scan
loop from 0 with pre-mask numr|frac and post-mask frac|dnom on a forward
buffer direction and the swapped pair on a backward one; and (c) at each
FRACTION SLASH occurrence the loop widens to the adjacent DECIMAL_NUMBER
run `[start, end)`, logs the unsafe-to-break span, ORs pre into
`[start, i)`, frac into `i`, post into `(i, end)`, and resumes scanning
from `end` (the source's `i = end - 1` plus increment). -/
theorem fraction_mask_setup_spec :
    (∀ has_frac frac_mask numr_mask dnom_mask (b : FracBuffer),
      (b.scratch_flags &&& RB_BUFFER_SCRATCH_FLAG_HAS_NON_ASCII = 0 ∨ has_frac = false) →
      rb_ot_shape_setup_masks_fraction has_frac frac_mask numr_mask dnom_mask b = b) ∧
    (∀ has_frac frac_mask numr_mask dnom_mask (b : FracBuffer),
      b.scratch_flags &&& RB_BUFFER_SCRATCH_FLAG_HAS_NON_ASCII ≠ 0 →
      has_frac = true →
      rb_ot_shape_setup_masks_fraction has_frac frac_mask numr_mask dnom_mask b =
        fracLoop frac_mask
          (if RB_DIRECTION_IS_FORWARD b.direction then numr_mask ||| frac_mask
           else frac_mask ||| dnom_mask)
          (if RB_DIRECTION_IS_FORWARD b.direction then frac_mask ||| dnom_mask
           else numr_mask ||| frac_mask)
          b 0) ∧
    (∀ frac_mask pre_mask post_mask (b : FracBuffer) (i : Nat),
      i < b.infos.length →
      (b.infos.getD i default).codepoint = 0x2044 →
      fracLoop frac_mask pre_mask post_mask b i =
        fracLoop frac_mask pre_mask post_mask
          (fracApplySpec frac_mask pre_mask post_mask b i)
          (fracScanEnd b.infos b.infos.length (i + 1))) := by
  refine ⟨?_, ?_, ?_⟩
  · intro has_frac frac_mask numr_mask dnom_mask b h
    rcases h with h | h
    · simp [rb_ot_shape_setup_masks_fraction, h]
    · subst h
      simp [rb_ot_shape_setup_masks_fraction]
  · intro has_frac frac_mask numr_mask dnom_mask b h1 h2
    subst h2
    simp [rb_ot_shape_setup_masks_fraction, h1]
  · intro frac_mask pre_mask post_mask b i h1 h2
    conv_lhs => rw [fracLoop]
    rw [dif_pos h1]
    have hcp : ((b.infos.getD i default).codepoint == 0x2044) = true := by
      simp only [beq_iff_eq]
      exact h2
    rw [if_pos hcp]
    rfl

/-- A concrete three-glyph buffer (digit, fraction slash, digit) used to
instantiate `fraction_mask_setup_spec`. -/
def fracExample : FracBuffer :=
  { infos := [⟨0x31, 0, 9⟩, ⟨0x2044, 0, 0⟩, ⟨0x32, 0, 9⟩],
    direction := Direction.LTR,
    scratch_flags := 1,
    no_break_spans := [] }

/-- Witness for C5: the step characterization applied at the fraction slash
at index 1 of the concrete example buffer. -/
theorem fraction_mask_setup_witness :
    fracLoop 4 1 2 fracExample 1 =
      fracLoop 4 1 2 (fracApplySpec 4 1 2 fracExample 1)
        (fracScanEnd fracExample.infos fracExample.infos.length 2) :=
  fraction_mask_setup_spec.2.2 4 1 2 fracExample 1 (by decide) (by decide)

/-- Resource-lifecycle events of plan initialization: OT map creation, AAT
map initialization, and their releases (`rb_ot_map_destroy`,
`aat_map.fini`). -/
inductive ResEvent where
  | mapCreate
  | aatInit
  | mapDestroy
  | aatFini
deriving DecidableEq, Repr

/-- rb_ot_shape_plan_t::init0 (hb-ot-shape.cc lines 181-203): create the OT
map and initialize the AAT map, build the planner, collect features,
compile the plan, then run the shaper's data_create (its success is the
abstract `data_create_ok`); on failure destroy the map, finalize the AAT
map and report failure (`none`: the plan is not published).  The returned
event list is the resource log in execution order. -/
def init0 (face : rb_face_t) (props : rb_segment_properties_t)
    (cat : ComplexShaper) (rec : ComplexShaper → ComplexShaper) (m : MapOut)
    (uf : List rb_feature_t) (sc so : List MapOp) (data_create_ok : Bool) :
    Option rb_ot_shape_plan_t × List ResEvent :=
  let events := [ResEvent.mapCreate, ResEvent.aatInit]
  let planner := plannerInit face props cat rec
  let _collected := rb_ot_shape_collect_features planner uf sc so
  let plan := compile planner m
  if !data_create_ok then
    (none, events ++ [ResEvent.mapDestroy, ResEvent.aatFini])
  else
    (some plan, events)

/-- C7: plan initialization fails exactly when the shaper's data_create
fails; on failure no plan is published and the resource log shows the
created OT map and the initialized AAT map both released before returning. -/
theorem init0_failure_behavior (face : rb_face_t) (props : rb_segment_properties_t)
    (cat : ComplexShaper) (rec : ComplexShaper → ComplexShaper) (m : MapOut)
    (uf : List rb_feature_t) (sc so : List MapOp) :
    (∀ ok : Bool, (init0 face props cat rec m uf sc so ok).fst.isSome = ok) ∧
    (init0 face props cat rec m uf sc so false).snd =
      [ResEvent.mapCreate, ResEvent.aatInit, ResEvent.mapDestroy, ResEvent.aatFini] ∧
    (init0 face props cat rec m uf sc so true).snd =
      [ResEvent.mapCreate, ResEvent.aatInit] := by
  refine ⟨?_, rfl, rfl⟩
  intro ok
  cases ok <;> rfl

/-- The sizing and direction state of the buffer that `rb_ot_shape_internal`
itself reads and writes. -/
structure ShapeBuffer where
  len : Nat
  direction : Direction
  max_len : Nat
  max_ops : Nat
  scratch_flags : Nat
deriving DecidableEq, Repr

/-- Modelled from the spec: the buffer limit constants
(RB_BUFFER_MAX_{LEN,OPS}_{FACTOR,MIN,DEFAULT} live outside src/), kept
abstract as a parameter record. -/
structure BufferLimits where
  max_len_factor : Nat
  max_len_min : Nat
  max_len_default : Nat
  max_ops_factor : Nat
  max_ops_min : Nat
  max_ops_default : Nat
deriving DecidableEq, Repr

/-- UINT_MAX for the 32-bit unsigned arithmetic of the C sources. -/
def UINT_MAX : Nat := 4294967295

/-- rb_unsigned_mul_overflows: the product exceeds UINT_MAX. -/
def rb_unsigned_mul_overflows (a b : Nat) : Bool := UINT_MAX < a * b

/-- The entry phase of rb_ot_shape_internal (hb-ot-shape.cc lines 589-599):
reset scratch flags to default, then set `max_len` and `max_ops` to
`max(len * factor, min)` — each only when the multiplication does not
overflow. -/
def shapeEntrySetup (k : BufferLimits) (b : ShapeBuffer) : ShapeBuffer :=
  let b := { b with scratch_flags := 0 }
  let b :=
    if !rb_unsigned_mul_overflows b.len k.max_len_factor then
      { b with max_len := max (b.len * k.max_len_factor) k.max_len_min }
    else b
  let b :=
    if !rb_unsigned_mul_overflows b.len k.max_ops_factor then
      { b with max_ops := max (b.len * k.max_ops_factor) k.max_ops_min }
    else b
  b

/-- rb_ot_shape_internal (hb-ot-shape.cc lines 587-626): entry setup,
record `target_direction` from the buffer, run the pipeline body (clear
output, masks, unicode props, clusters, native direction, shaper hooks,
substitute, position, flags — all external to this frame property and
modelled as the arbitrary `pipeline`), then restore the direction to
`target_direction` and reset `max_len`/`max_ops` to their defaults. -/
def rb_ot_shape_internal (k : BufferLimits) (pipeline : ShapeBuffer → ShapeBuffer)
    (b0 : ShapeBuffer) : ShapeBuffer :=
  let b := shapeEntrySetup k b0
  let target_direction := b.direction
  let b := pipeline b
  { b with
    direction := target_direction
    max_len := k.max_len_default
    max_ops := k.max_ops_default }

theorem shapeEntrySetup_direction (k : BufferLimits) (b : ShapeBuffer) :
    (shapeEntrySetup k b).direction = b.direction := by
  unfold shapeEntrySetup
  dsimp only
  split <;> split <;> rfl

/-- C8: after every shape call, whatever the pipeline body did to the
buffer (including mid-pipeline direction changes), the buffer's direction
equals the direction recorded at entry — which the entry setup leaves
untouched, so it equals the entry direction — and `max_len`/`max_ops` are
reset to their defaults. -/
theorem shape_restores_direction_and_caps (k : BufferLimits)
    (pipeline : ShapeBuffer → ShapeBuffer) (b : ShapeBuffer) :
    (rb_ot_shape_internal k pipeline b).direction = b.direction ∧
    (rb_ot_shape_internal k pipeline b).max_len = k.max_len_default ∧
    (rb_ot_shape_internal k pipeline b).max_ops = k.max_ops_default := by
  refine ⟨?_, rfl, rfl⟩
  show (shapeEntrySetup k b).direction = b.direction
  exact shapeEntrySetup_direction k b

/-- C9: at shape entry, `max_len` becomes `max(len * LEN_FACTOR, LEN_MIN)`
exactly when `len * LEN_FACTOR` does not overflow the unsigned width and is
left unchanged (at its default) on overflow; likewise for `max_ops` with
the OPS constants; in both cases the function is total, so shaping
continues without error. -/
theorem safety_caps_spec (k : BufferLimits) (b : ShapeBuffer) :
    (shapeEntrySetup k b).max_len =
      (if rb_unsigned_mul_overflows b.len k.max_len_factor then b.max_len
       else max (b.len * k.max_len_factor) k.max_len_min) ∧
    (shapeEntrySetup k b).max_ops =
      (if rb_unsigned_mul_overflows b.len k.max_ops_factor then b.max_ops
       else max (b.len * k.max_ops_factor) k.max_ops_min) := by
  unfold shapeEntrySetup
  dsimp only
  constructor
  · split <;> split <;> simp_all
  · split <;> split <;> simp_all
